import Mathlib

/-!
Verification of the RobotMesh VEX IQ Python-B API stubs repository.

This file shallowly embeds the behavioural core of the repository:

* the call-instrumentation decorators `act` and `sense`
  (source file `__vex_decor.py`), including the argument-dictionary
  reconstruction `args_dict_from_func_and_given_args`;
* the drivetrain operations `turn_for`, `set_drive_velocity`,
  `set_stopping` (source file `vex/multi_device_group/drive_train.py`);
* the sonar operations `distance` and `set_maximum`, and the sonar and
  color-sensor identity operations (source files
  `vex/distance_sensor/sonar.py`, `vex/color_sensor/__init__.py`);
* the free helper `wait_for` (source file `vex/__init__.py`);
* the grading subsystem `StateSeqGrader.__init__` and
  `StateSeqGrader.check_submission_str`
  (source file `__vex/open_edx_grader.py`).

Python values passed through the decorators are modelled by the inductive
type `PyVal`; Python dictionaries keyed by argument tuples are modelled by
insertion-ordered association lists, which matches the insertion-ordered
semantics of Python dicts.  Exceptions are modelled by `Except String`.
-/

/-- Brake modes, codes COAST=0 / BRAKE=1 / HOLD=2 (source `vex/motor.py` and
the brake-type enumeration of the instrumented catalogue). -/
inductive BrakeType where
  | COAST
  | BRAKE
  | HOLD
deriving DecidableEq

/-- Direction values, codes FWD=0 / REV=1 (source `vex/motor.py`),
re-exported publicly as FORWARD / REVERSE. -/
inductive DirectionType where
  | FWD
  | REV
deriving DecidableEq

/-- Turn directions, codes LEFT=0 / RIGHT=1 (source `vex/motor.py`). -/
inductive TurnType where
  | LEFT
  | RIGHT
deriving DecidableEq

/-- Velocity units, codes PCT=0 / RPM=1 / DPS=2 / RAW=99
(source `vex/motor.py`). -/
inductive VelocityUnits where
  | PCT
  | RPM
  | DPS
  | RAW
deriving DecidableEq

/-- Distance units MM and INCHES.  The enumeration module
`vex/_common_enums/distance.py` is not part of the provided sources; the
member list is the one imported by `sonar.py` and re-exported by
`vex/__init__.py` (MM, INCHES). -/
inductive DistanceUnits where
  | MM
  | INCHES
deriving DecidableEq

/-- Rotation units DEGREES and TURNS.  The enumeration module
`vex/_common_enums/rotation.py` is not part of the provided sources; the
member list is the one re-exported by `vex/__init__.py` (DEGREES, TURNS). -/
inductive RotationUnits where
  | DEGREES
  | TURNS
deriving DecidableEq

/-- Scalar Python values travelling through the instrumentation wrappers:
the implicit return value None, booleans, integers, strings, enumeration
members, and device objects (identified by an id standing for the object
identity). -/
inductive PyVal where
  | none
  | bool (b : Bool)
  | int (n : Int)
  | str (s : String)
  | distanceUnit (u : DistanceUnits)
  | rotationUnit (u : RotationUnits)
  | velocityUnit (u : VelocityUnits)
  | turnType (t : TurnType)
  | brakeType (m : BrakeType)
  | directionType (d : DirectionType)
  | device (id : Nat)
deriving DecidableEq

/-- Values storable in a scripted-response table: either a scalar value
(returned unchanged on every matching call) or a Python list (consumed one
element per matching call).  This mirrors the `isinstance(value, list)`
dispatch at line 122 of `__vex_decor.py`. -/
inductive Scripted where
  | scalar (v : PyVal)
  | seq (vs : List PyVal)
deriving DecidableEq

/-- Argument dictionary: insertion-ordered mapping from parameter name to
value (a Python dict built by `args_dict_from_func_and_given_args`). -/
abbrev ArgsDict := List (String × PyVal)

/-- Scripted-response table of one sensing operation on one device:
mapping from argument tuple to stored scripted response (the Python dict
`self._<operation-name>` of `__vex_decor.py`). -/
abbrev SenseTable := List (ArgsDict × Scripted)

/-- Dictionary lookup: value of the first entry with the given key. -/
def assocGet {α β : Type} [DecidableEq α] (k : α) : List (α × β) → Option β
  | [] => Option.none
  | (k0, v0) :: rest => if k0 = k then some v0 else assocGet k rest

/-- Dictionary update `d[k] = v`: overwrite the first entry with the given
key in place, otherwise append at the end (Python dict insertion order). -/
def assocSet {α β : Type} [DecidableEq α] (k : α) (v : β) : List (α × β) → List (α × β)
  | [] => [(k, v)]
  | (k0, v0) :: rest => if k0 = k then (k0, v) :: rest else (k0, v0) :: assocSet k v rest

/-- Dictionary pop `d.pop(k)`: remove the entry with the given key and
return its value together with the remaining dictionary; `Option.none`
models the KeyError raised when the key is absent. -/
def assocPop {α β : Type} [DecidableEq α] (k : α) : List (α × β) → Option (β × List (α × β))
  | [] => Option.none
  | (k0, v0) :: rest =>
      if k0 = k then some (v0, rest)
      else match assocPop k rest with
           | Option.none => Option.none
           | some (v, rest2) => some (v, (k0, v0) :: rest2)

/-- Dictionary pop with default `d.pop(k, None)`: remove the entry with the
given key when present, keep the dictionary unchanged otherwise. -/
def assocRemove {α β : Type} [DecidableEq α] (k : α) : List (α × β) → List (α × β)
  | [] => []
  | (k0, v0) :: rest => if k0 = k then rest else (k0, v0) :: assocRemove k rest

/-- Declared-parameter metadata of a wrapped operation: fully qualified
name (`__qualname__`), plain name (`__name__`), the declared parameter
names in order (`getfullargspec(func).args`) and the declared default
values (`getfullargspec(func).defaults`, aligned with the trailing
parameters; `getfullargspec` yields None — modelled as `Option.none` —
when the operation declares no default at all, and a nonempty tuple
otherwise). -/
structure FuncSpec where
  qualname : String
  name : String
  argNames : List String
  defaults : Option (List PyVal)
deriving DecidableEq

/-- Embedding of `args_dict_from_func_and_given_args` (lines 32-43 of
`__vex_decor.py`): pair each given positional argument with the parameter
name of the same index; then, only when trailing parameters were omitted
(`n = len(arg_names) - len(given_args) > 0`), update the dictionary with
`zip(arg_names[-n:], arg_spec.defaults[-n:])`.  Passing more positional
arguments than declared parameters raises IndexError inside the dict
comprehension; omitting parameters of an operation that declares no
default at all (where `arg_spec.defaults` is None) raises TypeError when
`arg_spec.defaults[-n:]` subscripts None. -/
def args_dict_from_func_and_given_args (argNames : List String)
    (defaults : Option (List PyVal)) (givenArgs : List PyVal) :
    Except String ArgsDict :=
  if givenArgs.length > argNames.length then Except.error "IndexError"
  else if argNames.length - givenArgs.length > 0 then
    match defaults with
    | Option.none =>
        Except.error "TypeError: NoneType object is not subscriptable"
    | some ds =>
        Except.ok (argNames.zip givenArgs ++
                   (argNames.drop givenArgs.length).zip
                     (ds.drop (ds.length - (argNames.length - givenArgs.length))))
  else Except.ok (argNames.zip givenArgs)

/-- Observable console output of an actuation call: the single
`ACT: <device>.<operation>(<arg>=<value>, ...)` line, recorded as the
operation name plus the printed argument dictionary (the argument
dictionary with the `self` entry popped). -/
inductive LogLine where
  | actLine (funcName : String) (printArgs : ArgsDict)
deriving DecidableEq

/-- Complete outcome of a successful actuation call: the device state
after the call, the printed log lines, and the returned
(qualified name, argument dictionary) pair. -/
structure ActOutput (σ : Type) where
  state : σ
  log : List LogLine
  result : String × ArgsDict
deriving DecidableEq

/-- Embedding of the `act` decorator (lines 55-74 of `__vex_decor.py`).
The wrapper rebuilds the full argument dictionary, prints one log line
(with the `self` entry removed from the printed arguments), and returns
the pair `(qualname, args_dict)`.  The wrapped operation body (`_body`)
is never invoked: the source wrapper returns at line 72 without calling
`actuating_func`, so the body can neither raise nor mutate the device. -/
def act {σ : Type} (spec : FuncSpec)
    (_body : σ → List PyVal → Except String (σ × PyVal))
    (st : σ) (givenArgs : List PyVal) : Except String (ActOutput σ) :=
  match args_dict_from_func_and_given_args spec.argNames spec.defaults givenArgs with
  | Except.error e => Except.error e
  | Except.ok argsDict =>
      Except.ok ⟨st,
                 [LogLine.actLine spec.name (assocRemove "self" argsDict)],
                 (spec.qualname, argsDict)⟩

/-- Result of a sensing call: either a returned value, or the single
interactive suspension point (the console prompt read and JSON-parsed when
interactive mode is on and no scripted response exists; the returned value
is then operator-supplied and outside the program). -/
inductive SenseResult where
  | ret (v : PyVal)
  | interactiveInput
deriving DecidableEq

/-- Embedding of the `sense` decorator (lines 77-145 of `__vex_decor.py`).
Inputs: the wrapped operation metadata, the wrapped operation body
(called as `sensing_func(*given_args)` in the default branch only), the
process-wide interactive-mode flag, the scripted-response table of this
operation on this device, the given positional arguments, and the optional
`set` keyword.  Output: the updated table and the call result.

With `set` omitted: look the argument tuple (the argument dictionary after
popping `self`) up in the table; a stored list is consumed one element per
call, returning None once empty; a stored scalar is returned unchanged;
with no stored entry the call prompts the operator when interactive mode
is on and otherwise invokes the wrapped operation body.  With `set`
supplied: store it under the argument tuple and return None. -/
def sense (spec : FuncSpec) (body : List PyVal → Except String PyVal)
    (interactiveON : Bool) (table : SenseTable) (givenArgs : List PyVal)
    (setArg : Option Scripted) : Except String (SenseTable × SenseResult) :=
  match args_dict_from_func_and_given_args spec.argNames spec.defaults givenArgs with
  | Except.error e => Except.error e
  | Except.ok argsDict =>
    match assocPop "self" argsDict with
    | Option.none => Except.error "KeyError"
    | some (_selfVal, inputArgs) =>
      match setArg with
      | Option.none =>
        match assocGet inputArgs table with
        | some (Scripted.seq []) => Except.ok (table, SenseResult.ret PyVal.none)
        | some (Scripted.seq (v0 :: rest)) =>
            Except.ok (assocSet inputArgs (Scripted.seq rest) table, SenseResult.ret v0)
        | some (Scripted.scalar v) => Except.ok (table, SenseResult.ret v)
        | Option.none =>
            if interactiveON then Except.ok (table, SenseResult.interactiveInput)
            else match body givenArgs with
                 | Except.error e => Except.error e
                 | Except.ok r => Except.ok (table, SenseResult.ret r)
      | some sv =>
          Except.ok (assocSet inputArgs sv table, SenseResult.ret PyVal.none)

/-- Configuration and accumulated state of a `DriveTrain`
(source `vex/multi_device_group/drive_train.py`, `__init__`, lines 30-47):
the two composed motor ports, the chassis geometry (wheel base 200, track
width 176, length unit MM, gear ratio 1 by default; the claims under
verification only exercise integral values, so the float-typed fields are
modelled over the integers), the two per-unit velocity dictionaries, and
the stopping mode. -/
structure DriveTrainState where
  left_motor : Nat
  right_motor : Nat
  wheel_base : Int
  track_width : Int
  length_unit : DistanceUnits
  gear_ratio : Int
  drive_velocities : List (VelocityUnits × Int)
  turn_velocities : List (VelocityUnits × Int)
  stopping : Option BrakeType
deriving DecidableEq

/-- Freshly constructed drivetrain on motor ports 0 and 1 with all default
configuration: both velocity dictionaries empty, no stopping mode. -/
def dt0 : DriveTrainState :=
  ⟨0, 1, 200, 176, DistanceUnits.MM, 1, [], [], Option.none⟩

/-- Declared parameters of `DriveTrain.turn_for` (lines 167-170 of
`drive_train.py`): `(self, direction=RIGHT, angle=90, unit=DEGREES, wait=True)`. -/
def turnForSpec : FuncSpec :=
  ⟨"DriveTrain.turn_for", "turn_for",
   ["self", "direction", "angle", "unit", "wait"],
   some [PyVal.turnType TurnType.RIGHT, PyVal.int 90,
         PyVal.rotationUnit RotationUnits.DEGREES, PyVal.bool true]⟩

/-- Own body of `DriveTrain.turn_for` (line 172 of `drive_train.py`),
as it would execute if it were called with the given positional arguments:
bind the parameters (applying the declared defaults) and run
`assert unit is DEGREES, ValueError(...)`. -/
def turn_for_body (st : DriveTrainState) (args : List PyVal) :
    Except String (DriveTrainState × PyVal) :=
  match args with
  | [_, _, _, u, _] =>
      if u = PyVal.rotationUnit RotationUnits.DEGREES then Except.ok (st, PyVal.none)
      else Except.error "*** ANGULAR UNIT MUST BE DEGREES ***"
  | [_, _, _, u] =>
      if u = PyVal.rotationUnit RotationUnits.DEGREES then Except.ok (st, PyVal.none)
      else Except.error "*** ANGULAR UNIT MUST BE DEGREES ***"
  | [_, _, _] => Except.ok (st, PyVal.none)
  | [_, _] => Except.ok (st, PyVal.none)
  | [_] => Except.ok (st, PyVal.none)
  | _ => Except.error "TypeError"

/-- Declared parameters of `DriveTrain.set_drive_velocity` (line 212 of
`drive_train.py`): `(self, velocity, unit=PERCENT)`. -/
def setDriveVelocitySpec : FuncSpec :=
  ⟨"DriveTrain.set_drive_velocity", "set_drive_velocity",
   ["self", "velocity", "unit"],
   some [PyVal.velocityUnit VelocityUnits.PCT]⟩

/-- Own body of `DriveTrain.set_drive_velocity` (line 214 of
`drive_train.py`), as it would execute if it were called:
`self.drive_velocities[unit] = velocity`. -/
def set_drive_velocity_body (st : DriveTrainState) (args : List PyVal) :
    Except String (DriveTrainState × PyVal) :=
  match st with
  | ⟨lm, rm, wb, tw, lu, gr, dv, tv, sm⟩ =>
    match args with
    | [_, PyVal.int v, PyVal.velocityUnit u] =>
        Except.ok (⟨lm, rm, wb, tw, lu, gr, assocSet u v dv, tv, sm⟩, PyVal.none)
    | [_, PyVal.int v] =>
        Except.ok (⟨lm, rm, wb, tw, lu, gr, assocSet VelocityUnits.PCT v dv, tv, sm⟩,
                   PyVal.none)
    | _ => Except.error "TypeError"

/-- Declared parameters of `DriveTrain.set_stopping` (line 262 of
`drive_train.py`): `(self, mode=BRAKE)`. -/
def setStoppingSpec : FuncSpec :=
  ⟨"DriveTrain.set_stopping", "set_stopping",
   ["self", "mode"],
   some [PyVal.brakeType BrakeType.BRAKE]⟩

/-- Own body of `DriveTrain.set_stopping` (line 264 of `drive_train.py`),
as it would execute if it were called: `self.stopping = mode`. -/
def set_stopping_body (st : DriveTrainState) (args : List PyVal) :
    Except String (DriveTrainState × PyVal) :=
  match st with
  | ⟨lm, rm, wb, tw, lu, gr, dv, tv, _sm⟩ =>
    match args with
    | [_, PyVal.brakeType m] =>
        Except.ok (⟨lm, rm, wb, tw, lu, gr, dv, tv, some m⟩, PyVal.none)
    | [_] =>
        Except.ok (⟨lm, rm, wb, tw, lu, gr, dv, tv, some BrakeType.BRAKE⟩, PyVal.none)
    | _ => Except.error "TypeError"

/-- Declared parameters of `DriveTrain.drive_for` (lines 119-121 of
`drive_train.py`): `(self, direction=FORWARD, distance=200, unit=MM, wait=True)`. -/
def driveForSpec : FuncSpec :=
  ⟨"DriveTrain.drive_for", "drive_for",
   ["self", "direction", "distance", "unit", "wait"],
   some [PyVal.directionType DirectionType.FWD, PyVal.int 200,
         PyVal.distanceUnit DistanceUnits.MM, PyVal.bool true]⟩

/-- Configuration and accumulated state of a `Sonar`
(source `vex/distance_sensor/sonar.py`, `__init__`, lines 32-37): the
brain port and the per-distance-unit maximum-range dictionary (empty by
default). -/
structure SonarState where
  port : Nat
  max_distance : List (DistanceUnits × Int)
deriving DecidableEq

/-- Embedding of `Sonar.__hash__` (lines 39-41 of `sonar.py`).  The source
reads `raise hash(self.port)`: it evaluates the hash of the port and then
raises it.  Since an `int` is not a `BaseException`, every call fails with
TypeError; no integer is ever returned. -/
def Sonar.hash (_s : SonarState) : Except String Int :=
  Except.error "TypeError: exceptions must derive from BaseException"

/-- Declared parameters of `Sonar.set_maximum` (line 51 of `sonar.py`):
`(self, distance, distanceUnits=MM)`. -/
def setMaximumSpec : FuncSpec :=
  ⟨"Sonar.set_maximum", "set_maximum",
   ["self", "distance", "distanceUnits"],
   some [PyVal.distanceUnit DistanceUnits.MM]⟩

/-- Own body of `Sonar.set_maximum` (line 53 of `sonar.py`), as it would
execute if it were called: `self.max_distance[distanceUnits] = distance`. -/
def set_maximum_body (st : SonarState) (args : List PyVal) :
    Except String (SonarState × PyVal) :=
  match st with
  | ⟨p, md⟩ =>
    match args with
    | [_, PyVal.int d, PyVal.distanceUnit u] =>
        Except.ok (⟨p, assocSet u d md⟩, PyVal.none)
    | [_, PyVal.int d] =>
        Except.ok (⟨p, assocSet DistanceUnits.MM d md⟩, PyVal.none)
    | _ => Except.error "TypeError"

/-- Declared parameters of `Sonar.distance` (line 103 of `sonar.py`):
`(self, unit=MM)`. -/
def sonarDistanceSpec : FuncSpec :=
  ⟨"Sonar.distance", "distance",
   ["self", "unit"],
   some [PyVal.distanceUnit DistanceUnits.MM]⟩

/-- Own body of `Sonar.distance` (line 105 of `sonar.py`), called as
`sensing_func(*given_args)` in the default branch of `sense`: bind the
parameters (the unit defaults to MM) and run
`assert unit in (MM, INCHES), ValueError(...)`; an empty body ends by
returning None. -/
def sonarDistanceBody (args : List PyVal) : Except String PyVal :=
  match args with
  | [_] => Except.ok PyVal.none
  | [_, u] =>
      if u = PyVal.distanceUnit DistanceUnits.MM ∨
         u = PyVal.distanceUnit DistanceUnits.INCHES then Except.ok PyVal.none
      else Except.error "*** UNIT MUST BE MM OR INCHES ***"
  | _ => Except.error "TypeError"

/-- Configuration of a `ColorSensor`
(source `vex/color_sensor/__init__.py`, `__init__`, lines 35-40): the
port, the grayscale-mode flag (default off) and the proximity threshold
(default 700). -/
structure ColorSensorState where
  port : Nat
  is_grayscale : Bool
  proximity_threshold : Int
deriving DecidableEq

/-- Embedding of `ColorSensor.__eq__` (lines 42-47): same concrete kind
and every configuration field equal. -/
def ColorSensor.eq (a b : ColorSensorState) : Bool :=
  a.port = b.port ∧ a.is_grayscale = b.is_grayscale ∧
    a.proximity_threshold = b.proximity_threshold

/-- Embedding of `ColorSensor.__hash__` (lines 49-51): the hash of the
tuple of configuration fields (equal Python tuples hash equally, so the
field tuple itself is the faithful abstraction of the hash value). -/
def ColorSensor.hash (a : ColorSensorState) : Except String (Nat × Bool × Int) :=
  Except.ok (a.port, a.is_grayscale, a.proximity_threshold)

/-- Embedding of the free helper `wait_for` (lines 160-176 of
`vex/__init__.py`).  The declared signature is
`wait_for(func, value=True, timeout=None, check_period=0) -> bool`, but
the function body consists of nothing besides its docstring, so every
call returns None immediately without ever polling `func`. -/
def wait_for (_func : Unit → Bool) (_value : Bool) (_timeout : Option Nat)
    (_check_period : Nat) : Option Bool :=
  Option.none

/-- Outcome of the sandboxed execution (`safe_exec`) of the augmented
grader tree on one submission: either the appended result-binding
statement ran and bound the boolean test result into the shared global
namespace, or some exception with the given stringified message was
raised (in which case the result binding was not reached and the shared
namespace keeps whatever binding it had before the call). -/
inductive ExecOutcome where
  | ok (result : Bool)
  | exn (msg : String)
deriving DecidableEq

/-- Embedding of `StateSeqGrader.check_submission_str` (lines 78-123 of
`open_edx_grader.py`).  The first argument is the binding of
`__SUBMISSION_FILE_TEST_RESULT__` in the shared global namespace before
the call (`Option.none` when the variable has never been bound); the
second is the outcome of the sandboxed execution.  The result is the
updated namespace binding paired with the returned verdict
(None = correct), or `Except.error` when the operation itself raises.

The source assigns `complaint_str = str(err)` in its `except` branch, but
then unconditionally reassigns
`complaint_str = None if globals()[RESULT_VAR] else "*** INCORRECT ***"`
after the `try` statement, so the exception message is discarded: the
verdict is derived from the namespace binding, and the lookup raises
KeyError when the variable was never bound. -/
def StateSeqGrader.check_submission_str (priorResult : Option Bool)
    (outcome : ExecOutcome) : Except String (Option Bool × Option String) :=
  -- try/except: on exception the dead local assignment `complaint_str = str(err)`
  let _exceptComplaint : Option String :=
    match outcome with
    | ExecOutcome.ok _ => Option.none
    | ExecOutcome.exn msg => some msg
  -- the shared namespace after `safe_exec`
  let updated : Option Bool :=
    match outcome with
    | ExecOutcome.ok b => some b
    | ExecOutcome.exn _ => priorResult
  -- unconditional reassignment from `globals()[RESULT_VAR]`
  match updated with
  | Option.none => Except.error "KeyError: __SUBMISSION_FILE_TEST_RESULT__"
  | some b => Except.ok (updated, if b then Option.none else some "*** INCORRECT ***")

/-- Assignment target of a top-level Python statement, as inspected by
`StateSeqGrader.__init__`: a plain variable name (an `ast.Name` node,
carrying `.id`) or a tuple-unpacking target (an `ast.Tuple` node, which
has no `.id` attribute). -/
inductive PTarget where
  | name (id : String)
  | tupleTarget
deriving DecidableEq

/-- Assigned value expression, flattened to exactly the shape inspected by
`StateSeqGrader.__init__`: a lambda (identified by an id so that the tree
rewrite can be seen to append that very lambda), a call expression with
its positional-argument list (each argument classified as lambda or not),
or any other expression (which has no `.args` attribute). -/
inductive PExpr where
  | lam (id : Nat)
  | call (args : List PExpr)
  | const

/-- Top-level statement of a grader script tree: an assignment statement
with its target list and value, or any other statement. -/
inductive PStmt where
  | assign (targets : List PTarget) (value : PExpr)
  | other

/-- Evaluation of the generator predicate
`isinstance(i, Assign) and i.targets[0].id == "grader"` (lines 62-64 of
`open_edx_grader.py`) on one statement.  Reading `.id` off a
tuple-unpacking target raises AttributeError. -/
def stmt_matches_grader : PStmt → Except String Bool
  | PStmt.assign targets _ =>
      match targets with
      | [] => Except.error "IndexError"
      | PTarget.name id :: _ => Except.ok (id = "grader")
      | PTarget.tupleTarget :: _ => Except.error "AttributeError: Tuple object has no attribute id"
  | PStmt.other => Except.ok false

/-- Evaluation of `next(i for i in module.body if <predicate>)`: scan the
statements in order; the first statement on which the predicate holds is
returned; a predicate evaluation error propagates; exhaustion raises
StopIteration. -/
def find_grader_assignment : List PStmt → Except String PStmt
  | [] => Except.error "StopIteration"
  | s :: rest =>
      match stmt_matches_grader s with
      | Except.error e => Except.error e
      | Except.ok true => Except.ok s
      | Except.ok false => find_grader_assignment rest

/-- Embedding of the tree-inspecting part of `StateSeqGrader.__init__`
(lines 62-76 of `open_edx_grader.py`) on the parsed top-level statement
list of the grader script: locate the first assignment to the variable
`grader`, take `value.args[0]` of that assignment (AttributeError when
the value is not a call expression, IndexError when the call has no
positional argument), require it to be a lambda (assertion failure
otherwise), and append a top-level assignment binding
`__SUBMISSION_FILE_TEST_FUNC__` to that lambda. -/
def StateSeqGrader.init (body : List PStmt) : Except String (List PStmt) :=
  match find_grader_assignment body with
  | Except.error e => Except.error e
  | Except.ok ga =>
    match ga with
    | PStmt.assign _ value =>
      match value with
      | PExpr.call [] => Except.error "IndexError"
      | PExpr.call (arg0 :: _) =>
        match arg0 with
        | PExpr.lam i =>
            Except.ok (body ++
              [PStmt.assign [PTarget.name "__SUBMISSION_FILE_TEST_FUNC__"] (PExpr.lam i)])
        | _ => Except.error "*** SUBMISSION FILE TEST FUNC MUST BE A LAMBDA ***"
      | _ => Except.error "AttributeError: value object has no attribute args"
    | PStmt.other => Except.error "unreachable"

/-- Decision of whether one top-level statement is an assignment whose
first target is the plain name `grader` and whose value is a call
expression whose first positional argument is a lambda: the pattern the
claim calls a well-formed grader script. -/
def is_grader_lambda_assign : PStmt → Bool
  | PStmt.assign (PTarget.name id :: _) (PExpr.call (PExpr.lam _ :: _)) => id = "grader"
  | _ => false

/-- Whether a grader script tree contains the required top-level
`grader = Constructor(lambda ...)` assignment anywhere. -/
def has_grader_lambda_assignment (body : List PStmt) : Bool :=
  body.any is_grader_lambda_assign

/-- Auxiliary list fact: indexing into a zip of two lists. -/
theorem zip_getElem {α β : Type} (l1 : List α) (l2 : List β) (i : Nat) (a : α) (b : β)
    (h1 : l1[i]? = some a) (h2 : l2[i]? = some b) : (l1.zip l2)[i]? = some (a, b) := by
  induction l1 generalizing l2 i with
  | nil => simp at h1
  | cons x xs ih =>
    cases l2 with
    | nil => simp at h2
    | cons y ys =>
      cases i with
      | zero =>
        rw [List.getElem?_cons_zero] at h1 h2
        injection h1 with h1
        injection h2 with h2
        subst h1; subst h2
        simp [List.zip_cons_cons]
      | succ j =>
        rw [List.getElem?_cons_succ] at h1 h2
        simpa [List.zip_cons_cons] using ih ys j h1 h2

/-- Auxiliary list fact: the keys of a zip are the truncated first list. -/
theorem zip_map_fst {α β : Type} (l1 : List α) (l2 : List β) :
    (l1.zip l2).map Prod.fst = l1.take l2.length := by
  induction l1 generalizing l2 with
  | nil => simp
  | cons x xs ih =>
    cases l2 with
    | nil => simp
    | cons y ys => simp [List.zip_cons_cons, ih ys]

/-- Auxiliary dictionary fact: looking up a key right after setting it
yields the value just stored. -/
theorem assocGet_assocSet {α β : Type} [DecidableEq α] (k : α) (v : β)
    (t : List (α × β)) : assocGet k (assocSet k v t) = some v := by
  induction t with
  | nil => simp [assocSet, assocGet]
  | cons kv rest ih =>
    obtain ⟨k0, v0⟩ := kv
    by_cases h : k0 = k
    · simp [assocSet, assocGet, h]
    · simp [assocSet, assocGet, h, ih]

/-- Auxiliary fact: with as many given arguments as declared parameters,
the reconstructed argument dictionary is exactly the name-value zip (no
default is consulted, so the declared defaults — even absent ones — are
irrelevant). -/
theorem args_dict_eq_of_full (argNames : List String)
    (defaults : Option (List PyVal)) (givenArgs : List PyVal)
    (h : givenArgs.length = argNames.length) :
    args_dict_from_func_and_given_args argNames defaults givenArgs =
      Except.ok (argNames.zip givenArgs) := by
  have hng : ¬ (givenArgs.length > argNames.length) := by omega
  have hn : ¬ (argNames.length - givenArgs.length > 0) := by omega
  simp [args_dict_from_func_and_given_args, hng, hn]

/-- Auxiliary fact: when the given arguments are a prefix of the declared
parameters and every omitted trailing parameter is covered by a declared
default (the two length hypotheses, stated over `defaults.getD []`, the
declared-defaults list or the empty list when none are declared), the
reconstruction succeeds with the supplied zip extended by the
omitted-names/trailing-defaults zip; the hypotheses put the
defaults-is-None TypeError path out of reach, since with no declared
defaults they force the call to supply every parameter. -/
theorem args_dict_eq_of_defaults_cover (argNames : List String)
    (defaults : Option (List PyVal)) (givenArgs : List PyVal)
    (h1 : givenArgs.length ≤ argNames.length)
    (h2 : argNames.length ≤ givenArgs.length + (defaults.getD []).length) :
    args_dict_from_func_and_given_args argNames defaults givenArgs =
      Except.ok (argNames.zip givenArgs ++
        (argNames.drop givenArgs.length).zip
          ((defaults.getD []).drop
            ((defaults.getD []).length - (argNames.length - givenArgs.length)))) := by
  have hng : ¬ (givenArgs.length > argNames.length) := Nat.not_lt.mpr h1
  by_cases hn : argNames.length - givenArgs.length > 0
  · cases defaults with
    | none =>
      exfalso
      simp only [Option.getD_none, List.length_nil] at h2
      omega
    | some ds =>
      simp [args_dict_from_func_and_given_args, hng, hn]
  · have hg : argNames.length - givenArgs.length = 0 := by omega
    have hzt : (argNames.drop givenArgs.length).zip
        ((defaults.getD []).drop
          ((defaults.getD []).length - (argNames.length - givenArgs.length))) =
        ([] : ArgsDict) := by
      rw [hg, Nat.sub_zero, List.drop_length, List.zip_nil_right]
    rw [hzt, List.append_nil]
    simp [args_dict_from_func_and_given_args, hng, hn]

/-- C1: the claim says that on any exception raised during sandboxed
execution, `check_submission_str` absorbs the exception and returns a
verdict equal to the stringified exception message.  The code computes
`complaint_str = str(err)` in its `except` branch but then unconditionally
reassigns the verdict from `globals()[RESULT_VAR]` (lines 118-121 of
`open_edx_grader.py`), so at the failing input (an execution that raises
"boom"): with the result variable never bound the operation itself raises
KeyError to its caller; with a stale binding from a prior submission it
returns the prior verdict (even None, i.e. "correct", for a crashing
submission).  The stringified message "boom" is never returned. -/
theorem checkSubmissionStr_clobbers_exception_verdict :
  StateSeqGrader.check_submission_str Option.none (ExecOutcome.exn "boom") =
    Except.error "KeyError: __SUBMISSION_FILE_TEST_RESULT__"
  ∧ StateSeqGrader.check_submission_str (some true) (ExecOutcome.exn "boom") =
      Except.ok (some true, Option.none)
  ∧ StateSeqGrader.check_submission_str (some false) (ExecOutcome.exn "boom") =
      Except.ok (some false, some "*** INCORRECT ***") :=
  ⟨rfl, rfl, rfl⟩

/-- Failing input of `DriveTrain.turn_for` for claim C2: the call
`dt.turn_for(RIGHT, 90, MM, True)` with the angular unit MM instead of
DEGREES. -/
def turnForGiven : List PyVal :=
  [PyVal.device 0, PyVal.turnType TurnType.RIGHT, PyVal.int 90,
   PyVal.distanceUnit DistanceUnits.MM, PyVal.bool true]

/-- C2: the claim says `turn_for` with a unit other than DEGREES fails
with an InvalidInput assertion.  The `act` wrapper never invokes the
operation body, so the `assert unit is DEGREES` at line 172 of
`drive_train.py` is dead code: the call returns the action-event pair
normally (first conjunct), although the body, had it been executed, would
indeed have raised exactly that assertion (second conjunct). -/
theorem turnFor_invalid_unit_does_not_raise :
  act turnForSpec turn_for_body dt0 turnForGiven =
    Except.ok ⟨dt0,
      [LogLine.actLine "turn_for"
        [("direction", PyVal.turnType TurnType.RIGHT), ("angle", PyVal.int 90),
         ("unit", PyVal.distanceUnit DistanceUnits.MM), ("wait", PyVal.bool true)]],
      ("DriveTrain.turn_for",
       [("self", PyVal.device 0), ("direction", PyVal.turnType TurnType.RIGHT),
        ("angle", PyVal.int 90), ("unit", PyVal.distanceUnit DistanceUnits.MM),
        ("wait", PyVal.bool true)])⟩
  ∧ turn_for_body dt0 turnForGiven =
      Except.error "*** ANGULAR UNIT MUST BE DEGREES ***" :=
  ⟨rfl, rfl⟩

/-- C3: the claim says that after `set_drive_velocity(50, PERCENT)` the
drivetrain's per-unit drive-velocity dictionary maps PERCENT to 50.  The
`act` wrapper never invokes the operation body, so the store at line 214
of `drive_train.py` is dead code: the wrapper returns the action-event
pair with the device state unchanged (first conjunct) and the fresh
drivetrain's dictionary stays empty (second conjunct), although the body,
had it been executed, would have performed exactly that store (third
conjunct). -/
theorem setDriveVelocity_does_not_store :
  act setDriveVelocitySpec set_drive_velocity_body dt0
      [PyVal.device 0, PyVal.int 50, PyVal.velocityUnit VelocityUnits.PCT] =
    Except.ok ⟨dt0,
      [LogLine.actLine "set_drive_velocity"
        [("velocity", PyVal.int 50), ("unit", PyVal.velocityUnit VelocityUnits.PCT)]],
      ("DriveTrain.set_drive_velocity",
       [("self", PyVal.device 0), ("velocity", PyVal.int 50),
        ("unit", PyVal.velocityUnit VelocityUnits.PCT)])⟩
  ∧ dt0.drive_velocities = []
  ∧ set_drive_velocity_body dt0
      [PyVal.device 0, PyVal.int 50, PyVal.velocityUnit VelocityUnits.PCT] =
      Except.ok
        (⟨0, 1, 200, 176, DistanceUnits.MM, 1, [(VelocityUnits.PCT, 50)], [],
          Option.none⟩,
         PyVal.none) :=
  ⟨rfl, rfl, rfl⟩

/-- C4: the claim says `wait_for` polls its function and returns True when
the value is matched or False on timeout.  The source function body is
empty (a docstring only, lines 173-176 of `vex/__init__.py`), so every
call — including one whose predicate is constantly the sought value and
one with a finite timeout — returns None immediately: it never polls and
never returns True or False. -/
theorem waitFor_always_returns_none :
  ∀ (func : Unit → Bool) (value : Bool) (timeout : Option Nat) (check_period : Nat),
    wait_for func value timeout check_period = Option.none :=
  fun _ _ _ _ => rfl

/-- C8: the claim says two identically configured devices of every kind
hash to the same integer without raising.  `Sonar.__hash__` (line 41 of
`sonar.py`) reads `raise hash(self.port)` instead of
`return hash(self.port)`, so hashing any sonar raises TypeError (an
integer is not an exception) and never returns an integer — in
particular two sonars on the same port cannot hash identically. -/
theorem sonarHash_always_raises :
  ∀ s : SonarState,
    Sonar.hash s = Except.error "TypeError: exceptions must derive from BaseException" :=
  fun _ => rfl

/-- Own body of `DriveTrain.drive_for` (lines 119-122 of
`drive_train.py`): empty (docstring only), so it would return None. -/
def drive_for_body (st : DriveTrainState) (_args : List PyVal) :
    Except String (DriveTrainState × PyVal) :=
  Except.ok (st, PyVal.none)

/-- C5: a call of an `act`-wrapped operation that supplies a prefix of the
positional arguments (with every omitted trailing parameter having a
declared default, i.e. the two length hypotheses) never invokes the
operation body (the output does not depend on `body` and keeps the state
unchanged) and returns the pair of the fully qualified name and an
argument dictionary whose keys are exactly the declared parameter names,
binding each supplied parameter to its given argument and each omitted
trailing parameter to its declared default
(the default of parameter `i` being `defaults[i + defaults.length - argNames.length]`,
since defaults align with the trailing parameters). -/
theorem act_fills_defaults {σ : Type} (spec : FuncSpec)
    (body : σ → List PyVal → Except String (σ × PyVal)) (st : σ) (given : List PyVal)
    (h1 : given.length ≤ spec.argNames.length)
    (h2 : spec.argNames.length ≤ given.length + (spec.defaults.getD []).length) :
    ∃ d : ArgsDict,
      act spec body st given =
        Except.ok ⟨st, [LogLine.actLine spec.name (assocRemove "self" d)],
                   (spec.qualname, d)⟩ ∧
      d.map Prod.fst = spec.argNames ∧
      (∀ (i : Nat) (nm : String) (v : PyVal),
          spec.argNames[i]? = some nm → given[i]? = some v →
          d[i]? = some (nm, v)) ∧
      (∀ (i : Nat) (nm : String) (v : PyVal),
          given.length ≤ i → spec.argNames[i]? = some nm →
          (spec.defaults.getD [])[i + (spec.defaults.getD []).length -
            spec.argNames.length]? = some v →
          d[i]? = some (nm, v)) := by
  have hargs := args_dict_eq_of_defaults_cover spec.argNames spec.defaults given h1 h2
  refine ⟨spec.argNames.zip given ++
      (spec.argNames.drop given.length).zip
        ((spec.defaults.getD []).drop
          ((spec.defaults.getD []).length - (spec.argNames.length - given.length))),
    ?_, ?_, ?_, ?_⟩
  · simp [act, hargs]
  · rw [List.map_append, zip_map_fst, zip_map_fst, List.length_drop]
    have he : (spec.defaults.getD []).length -
        ((spec.defaults.getD []).length - (spec.argNames.length - given.length)) =
        spec.argNames.length - given.length := by omega
    rw [he]
    have h3 : (spec.argNames.drop given.length).take
        (spec.argNames.length - given.length) = spec.argNames.drop given.length := by
      apply List.take_of_length_le
      rw [List.length_drop]
    rw [h3]
    exact List.take_append_drop _ _
  · intro i nm v hnm hv
    have hig : i < given.length := (List.getElem?_eq_some.mp hv).1
    have hlen1 : i < (spec.argNames.zip given).length := by
      rw [List.length_zip]
      exact Nat.lt_min.mpr ⟨Nat.lt_of_lt_of_le hig h1, hig⟩
    rw [List.getElem?_append_left hlen1]
    exact zip_getElem _ _ i nm v hnm hv
  · intro i nm v hgi hnm hv
    have hiL : i < spec.argNames.length := (List.getElem?_eq_some.mp hnm).1
    have hzlen : (spec.argNames.zip given).length = given.length := by
      rw [List.length_zip]
      exact Nat.min_eq_right h1
    rw [List.getElem?_append_right (by rw [hzlen]; exact hgi), hzlen]
    apply zip_getElem
    · rw [List.getElem?_drop]
      have he : given.length + (i - given.length) = i := by omega
      rw [he]
      exact hnm
    · rw [List.getElem?_drop]
      have he : (spec.defaults.getD []).length -
          (spec.argNames.length - given.length) + (i - given.length) =
          i + (spec.defaults.getD []).length - spec.argNames.length := by omega
      rw [he]
      exact hv

/-- Arguments of the specification example for claim C5: the call
`dt.drive_for(FORWARD, 300)`, omitting the trailing parameters `unit` and
`wait`. -/
def driveForGiven : List PyVal :=
  [PyVal.device 0, PyVal.directionType DirectionType.FWD, PyVal.int 300]

/-- Witness for C5 at the specification example: `drive_for(FORWARD, 300)`
on a drivetrain with defaults `unit=MM, wait=True`. -/
theorem act_fills_defaults_witness :
  driveForGiven.length ≤ driveForSpec.argNames.length
  ∧ driveForSpec.argNames.length ≤
      driveForGiven.length + (driveForSpec.defaults.getD []).length
  ∧ ∃ d : ArgsDict,
      act driveForSpec drive_for_body dt0 driveForGiven =
        Except.ok ⟨dt0, [LogLine.actLine driveForSpec.name (assocRemove "self" d)],
                   (driveForSpec.qualname, d)⟩ ∧
      d.map Prod.fst = driveForSpec.argNames ∧
      (∀ (i : Nat) (nm : String) (v : PyVal),
          driveForSpec.argNames[i]? = some nm → driveForGiven[i]? = some v →
          d[i]? = some (nm, v)) ∧
      (∀ (i : Nat) (nm : String) (v : PyVal),
          driveForGiven.length ≤ i → driveForSpec.argNames[i]? = some nm →
          (driveForSpec.defaults.getD [])[i + (driveForSpec.defaults.getD []).length -
            driveForSpec.argNames.length]? = some v →
          d[i]? = some (nm, v)) :=
  ⟨by decide, by decide,
   act_fills_defaults driveForSpec drive_for_body dt0 driveForGiven
     (by decide) (by decide)⟩

/-- C10: first conjunct — on every call whatsoever (any argument list,
including the ones on which the argument reconstruction raises IndexError
or TypeError), the outcome of an `act`-wrapped operation is independent
of the wrapped body, so the field assignments inside bodies such as
`DriveTrain.set_stopping` and `Sonar.set_maximum` are never executed and
no attribute of the owning device is ever touched.  Second conjunct — on
every call whose argument reconstruction succeeds (a prefix of the
positional arguments with every omitted trailing parameter covered by a
declared default: the two length hypotheses, the exact success region of
`args_dict_from_func_and_given_args`), the wrapper's only effects are
printing exactly one log line and returning the (qualified name, argument
dictionary) pair, with the device state returned unchanged. -/
theorem act_frame_effect {σ : Type} (spec : FuncSpec)
    (body : σ → List PyVal → Except String (σ × PyVal)) (st : σ)
    (given : List PyVal)
    (h1 : given.length ≤ spec.argNames.length)
    (h2 : spec.argNames.length ≤ given.length + (spec.defaults.getD []).length) :
    (∀ (body2 : σ → List PyVal → Except String (σ × PyVal))
       (given2 : List PyVal),
        act spec body st given2 = act spec body2 st given2)
    ∧ ∃ d : ArgsDict,
        act spec body st given =
          Except.ok ⟨st, [LogLine.actLine spec.name (assocRemove "self" d)],
                     (spec.qualname, d)⟩ := by
  constructor
  · intro body2 given2
    rfl
  · have hargs := args_dict_eq_of_defaults_cover spec.argNames spec.defaults given h1 h2
    refine ⟨spec.argNames.zip given ++
        (spec.argNames.drop given.length).zip
          ((spec.defaults.getD []).drop
            ((spec.defaults.getD []).length -
             (spec.argNames.length - given.length))), ?_⟩
    simp [act, hargs]

/-- Witness for C10 at the two operations named by the claim:
`set_stopping(HOLD)` on a fresh drivetrain (whose stopping mode stays
unset) and `set_maximum(999)` on a sonar (whose per-unit maximum-distance
dictionary stays empty); both real bodies, passed to the wrapper, are
ignored on every call, and both concrete calls return the unchanged state
with one log line and the action-event pair. -/
theorem act_frame_effect_witness :
  ([PyVal.device 0, PyVal.brakeType BrakeType.HOLD].length ≤
      setStoppingSpec.argNames.length
   ∧ setStoppingSpec.argNames.length ≤
      [PyVal.device 0, PyVal.brakeType BrakeType.HOLD].length +
        (setStoppingSpec.defaults.getD []).length
   ∧ ((∀ (body2 : DriveTrainState → List PyVal →
          Except String (DriveTrainState × PyVal)) (given2 : List PyVal),
        act setStoppingSpec set_stopping_body dt0 given2 =
          act setStoppingSpec body2 dt0 given2)
      ∧ ∃ d : ArgsDict,
          act setStoppingSpec set_stopping_body dt0
              [PyVal.device 0, PyVal.brakeType BrakeType.HOLD] =
            Except.ok ⟨dt0,
                       [LogLine.actLine setStoppingSpec.name (assocRemove "self" d)],
                       (setStoppingSpec.qualname, d)⟩))
  ∧ ([PyVal.device 1, PyVal.int 999].length ≤ setMaximumSpec.argNames.length
   ∧ setMaximumSpec.argNames.length ≤
      [PyVal.device 1, PyVal.int 999].length + (setMaximumSpec.defaults.getD []).length
   ∧ ((∀ (body2 : SonarState → List PyVal → Except String (SonarState × PyVal))
         (given2 : List PyVal),
        act setMaximumSpec set_maximum_body (⟨3, []⟩ : SonarState) given2 =
          act setMaximumSpec body2 (⟨3, []⟩ : SonarState) given2)
      ∧ ∃ d : ArgsDict,
          act setMaximumSpec set_maximum_body (⟨3, []⟩ : SonarState)
              [PyVal.device 1, PyVal.int 999] =
            Except.ok ⟨(⟨3, []⟩ : SonarState),
                       [LogLine.actLine setMaximumSpec.name (assocRemove "self" d)],
                       (setMaximumSpec.qualname, d)⟩)) :=
  ⟨⟨by decide, by decide,
    act_frame_effect setStoppingSpec set_stopping_body dt0
      [PyVal.device 0, PyVal.brakeType BrakeType.HOLD] (by decide) (by decide)⟩,
   ⟨by decide, by decide,
    act_frame_effect setMaximumSpec set_maximum_body (⟨3, []⟩ : SonarState)
      [PyVal.device 1, PyVal.int 999] (by decide) (by decide)⟩⟩

/-- Scripted-response table of a sonar whose `distance` operation has a
stored scalar response 42 for the argument tuple `(unit=DEGREES,)` — an
invalid unit. -/
def sonarScriptedTable : SenseTable :=
  [([("unit", PyVal.rotationUnit RotationUnits.DEGREES)],
    Scripted.scalar (PyVal.int 42))]

/-- Counterexample to C6 as stated: the claim requires
`Sonar.distance(DEGREES)` to fail with InvalidInput regardless of whether
a scripted response exists and regardless of the interactive-mode flag.
With a scripted response stored for that exact argument tuple the call
returns the scripted value 42 and raises nothing (first conjunct), even
though DEGREES is outside the asserted unit set (second conjunct); with
interactive mode on and no scripted response, the call reaches the
console prompt instead of raising (third conjunct). -/
theorem sonarDistance_scripted_invalid_unit_no_raise :
  sense sonarDistanceSpec sonarDistanceBody false sonarScriptedTable
      [PyVal.device 3, PyVal.rotationUnit RotationUnits.DEGREES] Option.none =
    Except.ok (sonarScriptedTable, SenseResult.ret (PyVal.int 42))
  ∧ sonarDistanceBody [PyVal.device 3, PyVal.rotationUnit RotationUnits.DEGREES] =
      Except.error "*** UNIT MUST BE MM OR INCHES ***"
  ∧ sense sonarDistanceSpec sonarDistanceBody true []
      [PyVal.device 3, PyVal.rotationUnit RotationUnits.DEGREES] Option.none =
    Except.ok ([], SenseResult.interactiveInput) :=
  ⟨rfl, rfl, rfl⟩

/-- C6 as amended: `Sonar.distance` called with the unit argument
millimeters or inches never raises, whatever the scripted-response table
and the interactive flag (first conjunct); called with any other unit
value, the call fails with the InvalidInput assertion if and only if no
scripted response is stored for that argument tuple and interactive mode
is off (second conjunct — a biconditional holding for every table, every
flag and every invalid unit value: the no-script non-interactive
fallthrough is the only path that invokes the operation body hosting the
assertion, and every other path returns normally). -/
theorem sonarDistance_invalid_unit_raise_conditions
    (table : SenseTable) (inter : Bool) (s u : PyVal) :
    ((u = PyVal.distanceUnit DistanceUnits.MM ∨
      u = PyVal.distanceUnit DistanceUnits.INCHES) →
      ∃ out, sense sonarDistanceSpec sonarDistanceBody inter table [s, u]
          Option.none = Except.ok out)
    ∧ (u ≠ PyVal.distanceUnit DistanceUnits.MM →
       u ≠ PyVal.distanceUnit DistanceUnits.INCHES →
       (sense sonarDistanceSpec sonarDistanceBody inter table [s, u] Option.none =
          Except.error "*** UNIT MUST BE MM OR INCHES ***"
        ↔ assocGet [("unit", u)] table = Option.none ∧ inter = false)) := by
  have hargs : args_dict_from_func_and_given_args ["self", "unit"]
      (some [PyVal.distanceUnit DistanceUnits.MM]) [s, u] =
      Except.ok [("self", s), ("unit", u)] := rfl
  have hpop : assocPop "self" [("self", s), ("unit", u)] =
      some (s, [("unit", u)]) := by
    simp [assocPop]
  constructor
  · intro hu
    rcases hget : assocGet [("unit", u)] table with _ | sv
    · cases inter with
      | true =>
        exact ⟨(table, SenseResult.interactiveInput),
               by simp [sense, sonarDistanceSpec, hargs, hpop, hget]⟩
      | false =>
        refine ⟨(table, SenseResult.ret PyVal.none), ?_⟩
        rcases hu with hu | hu
        · subst hu
          simp [sense, sonarDistanceSpec, hargs, hpop, hget, sonarDistanceBody]
        · subst hu
          simp [sense, sonarDistanceSpec, hargs, hpop, hget, sonarDistanceBody]
    · cases sv with
      | scalar v =>
        exact ⟨(table, SenseResult.ret v),
               by simp [sense, sonarDistanceSpec, hargs, hpop, hget]⟩
      | seq vs =>
        cases vs with
        | nil =>
          exact ⟨(table, SenseResult.ret PyVal.none),
                 by simp [sense, sonarDistanceSpec, hargs, hpop, hget]⟩
        | cons v0 rest =>
          exact ⟨(assocSet [("unit", u)] (Scripted.seq rest) table,
                  SenseResult.ret v0),
                 by simp [sense, sonarDistanceSpec, hargs, hpop, hget]⟩
  · intro h1 h2
    rcases hget : assocGet [("unit", u)] table with _ | sv
    · cases inter with
      | false =>
        have hsense : sense sonarDistanceSpec sonarDistanceBody false table [s, u]
            Option.none = Except.error "*** UNIT MUST BE MM OR INCHES ***" := by
          simp [sense, sonarDistanceSpec, hargs, hpop, hget, sonarDistanceBody, h1, h2]
        rw [hsense]
        simp [hget]
      | true =>
        have hsense : sense sonarDistanceSpec sonarDistanceBody true table [s, u]
            Option.none = Except.ok (table, SenseResult.interactiveInput) := by
          simp [sense, sonarDistanceSpec, hargs, hpop, hget]
        rw [hsense]
        simp
    · cases sv with
      | scalar v =>
        have hsense : sense sonarDistanceSpec sonarDistanceBody inter table [s, u]
            Option.none = Except.ok (table, SenseResult.ret v) := by
          simp [sense, sonarDistanceSpec, hargs, hpop, hget]
        rw [hsense]
        simp [hget]
      | seq vs =>
        cases vs with
        | nil =>
          have hsense : sense sonarDistanceSpec sonarDistanceBody inter table [s, u]
              Option.none = Except.ok (table, SenseResult.ret PyVal.none) := by
            simp [sense, sonarDistanceSpec, hargs, hpop, hget]
          rw [hsense]
          simp [hget]
        | cons v0 rest =>
          have hsense : sense sonarDistanceSpec sonarDistanceBody inter table [s, u]
              Option.none =
              Except.ok (assocSet [("unit", u)] (Scripted.seq rest) table,
                         SenseResult.ret v0) := by
            simp [sense, sonarDistanceSpec, hargs, hpop, hget]
          rw [hsense]
          simp [hget]

/-- Witness for the amended C6: with an empty table and interactive mode
off, `distance(DEGREES)` fails with the InvalidInput assertion. -/
theorem sonarDistance_invalid_unit_raise_conditions_witness :
  sense sonarDistanceSpec sonarDistanceBody false []
      [PyVal.device 3, PyVal.rotationUnit RotationUnits.DEGREES] Option.none =
    Except.error "*** UNIT MUST BE MM OR INCHES ***" :=
  ((sonarDistance_invalid_unit_raise_conditions [] false (PyVal.device 3)
      (PyVal.rotationUnit RotationUnits.DEGREES)).2
    (by decide) (by decide)).mpr ⟨rfl, rfl⟩

/-- C7: for every device, sensing operation (metadata: any qualified name,
any plain name, declared parameters `self` followed by any further names,
any defaults) and fully supplied argument tuple, storing the scripted
sequence `[a, b]` through the `set` path and then repeatedly calling the
operation with the same arguments returns `a` on the first matching call,
`b` on the second, and the absent-value sentinel None on the third; the
third call leaves the table unchanged, so by iterating the fourth
equation every later matching call also returns None.  The operation body
and the interactive-mode flag are universally quantified: the scripted
path consults neither. -/
theorem sense_sequence_consumption (qn nm : String) (restNames : List String)
    (defaults : Option (List PyVal)) (selfVal : PyVal) (restVals : List PyVal)
    (a b : PyVal) (table : SenseTable)
    (body : List PyVal → Except String PyVal) (inter : Bool)
    (hlen : restVals.length = restNames.length) :
    ∃ t1 t2 t3 : SenseTable,
      sense ⟨qn, nm, "self" :: restNames, defaults⟩ body inter table
          (selfVal :: restVals) (some (Scripted.seq [a, b])) =
        Except.ok (t1, SenseResult.ret PyVal.none)
      ∧ sense ⟨qn, nm, "self" :: restNames, defaults⟩ body inter t1
          (selfVal :: restVals) Option.none = Except.ok (t2, SenseResult.ret a)
      ∧ sense ⟨qn, nm, "self" :: restNames, defaults⟩ body inter t2
          (selfVal :: restVals) Option.none = Except.ok (t3, SenseResult.ret b)
      ∧ sense ⟨qn, nm, "self" :: restNames, defaults⟩ body inter t3
          (selfVal :: restVals) Option.none =
        Except.ok (t3, SenseResult.ret PyVal.none) := by
  have hargs : args_dict_from_func_and_given_args ("self" :: restNames) defaults
      (selfVal :: restVals) =
      Except.ok (("self", selfVal) :: restNames.zip restVals) := by
    have h := args_dict_eq_of_full ("self" :: restNames) defaults
      (selfVal :: restVals) (by simp [hlen])
    simpa [List.zip_cons_cons] using h
  have hpop : assocPop "self" (("self", selfVal) :: restNames.zip restVals) =
      some (selfVal, restNames.zip restVals) := by
    simp [assocPop]
  refine ⟨assocSet (restNames.zip restVals) (Scripted.seq [a, b]) table,
          assocSet (restNames.zip restVals) (Scripted.seq [b])
            (assocSet (restNames.zip restVals) (Scripted.seq [a, b]) table),
          assocSet (restNames.zip restVals) (Scripted.seq [])
            (assocSet (restNames.zip restVals) (Scripted.seq [b])
              (assocSet (restNames.zip restVals) (Scripted.seq [a, b]) table)),
          ?_, ?_, ?_, ?_⟩
  · simp [sense, hargs, hpop]
  · simp [sense, hargs, hpop, assocGet_assocSet]
  · simp [sense, hargs, hpop, assocGet_assocSet]
  · simp [sense, hargs, hpop, assocGet_assocSet]

/-- Witness for C7 at a concrete input: the sonar `distance` operation
with argument tuple `(unit=MM,)`, scripted sequence `[100, 200]`, empty
initial table, interactive mode off. -/
theorem sense_sequence_consumption_witness :
  [PyVal.distanceUnit DistanceUnits.MM].length = ["unit"].length
  ∧ ∃ t1 t2 t3 : SenseTable,
      sense ⟨"Sonar.distance", "distance", "self" :: ["unit"],
             some [PyVal.distanceUnit DistanceUnits.MM]⟩ sonarDistanceBody false []
          (PyVal.device 1 :: [PyVal.distanceUnit DistanceUnits.MM])
          (some (Scripted.seq [PyVal.int 100, PyVal.int 200])) =
        Except.ok (t1, SenseResult.ret PyVal.none)
      ∧ sense ⟨"Sonar.distance", "distance", "self" :: ["unit"],
               some [PyVal.distanceUnit DistanceUnits.MM]⟩ sonarDistanceBody false t1
          (PyVal.device 1 :: [PyVal.distanceUnit DistanceUnits.MM]) Option.none =
        Except.ok (t2, SenseResult.ret (PyVal.int 100))
      ∧ sense ⟨"Sonar.distance", "distance", "self" :: ["unit"],
               some [PyVal.distanceUnit DistanceUnits.MM]⟩ sonarDistanceBody false t2
          (PyVal.device 1 :: [PyVal.distanceUnit DistanceUnits.MM]) Option.none =
        Except.ok (t3, SenseResult.ret (PyVal.int 200))
      ∧ sense ⟨"Sonar.distance", "distance", "self" :: ["unit"],
               some [PyVal.distanceUnit DistanceUnits.MM]⟩ sonarDistanceBody false t3
          (PyVal.device 1 :: [PyVal.distanceUnit DistanceUnits.MM]) Option.none =
        Except.ok (t3, SenseResult.ret PyVal.none) :=
  ⟨by decide,
   sense_sequence_consumption "Sonar.distance" "distance" ["unit"]
     (some [PyVal.distanceUnit DistanceUnits.MM]) (PyVal.device 1)
     [PyVal.distanceUnit DistanceUnits.MM] (PyVal.int 100) (PyVal.int 200) []
     sonarDistanceBody false (by decide)⟩

/-- Auxiliary fact: the scan of `find_grader_assignment` skips a prefix of
statements on which the predicate evaluates to false. -/
theorem find_grader_skip (pre rest : List PStmt)
    (hpre : ∀ s ∈ pre, stmt_matches_grader s = Except.ok false) :
    find_grader_assignment (pre ++ rest) = find_grader_assignment rest := by
  induction pre with
  | nil => rfl
  | cons s0 pre ih =>
    have h0 := hpre s0 (List.mem_cons_self s0 pre)
    have hrest : ∀ s ∈ pre, stmt_matches_grader s = Except.ok false :=
      fun s hs => hpre s (List.mem_cons_of_mem s0 hs)
    simp only [List.cons_append, find_grader_assignment, h0]
    exact ih hrest

/-- Auxiliary fact: a statement returned by `find_grader_assignment` is in
the scanned list and satisfies the predicate. -/
theorem find_grader_mem (body : List PStmt) (ga : PStmt)
    (h : find_grader_assignment body = Except.ok ga) :
    ga ∈ body ∧ stmt_matches_grader ga = Except.ok true := by
  induction body with
  | nil => simp [find_grader_assignment] at h
  | cons s0 rest ih =>
    rcases h0 : stmt_matches_grader s0 with e | b
    · simp only [find_grader_assignment, h0] at h
      exact Except.noConfusion h
    · cases b with
      | true =>
        simp only [find_grader_assignment, h0] at h
        injection h with h
        subst h
        exact ⟨List.mem_cons_self _ _, h0⟩
      | false =>
        simp only [find_grader_assignment, h0] at h
        obtain ⟨hm, hmt⟩ := ih h
        exact ⟨List.mem_cons_of_mem _ hm, hmt⟩

/-- Auxiliary fact: on a script tree containing no top-level
`grader = Constructor(lambda ...)` assignment, grader construction raises
some construction-time error (StopIteration when no assignment to
`grader` exists, AttributeError or IndexError or the lambda assertion
when one exists with the wrong shape, AttributeError when the scan hits a
tuple-unpacking target first). -/
theorem init_error_of_lacking (body : List PStmt)
    (h : has_grader_lambda_assignment body = false) :
    ∃ e, StateSeqGrader.init body = Except.error e := by
  cases hf : find_grader_assignment body with
  | error e => exact ⟨e, by simp [StateSeqGrader.init, hf]⟩
  | ok ga =>
    obtain ⟨hmem, hmatch⟩ := find_grader_mem body ga hf
    have hnot : is_grader_lambda_assign ga = false := by
      cases hval : is_grader_lambda_assign ga
      · rfl
      · exfalso
        have htrue : has_grader_lambda_assignment body = true :=
          List.any_eq_true.mpr ⟨ga, hmem, hval⟩
        rw [h] at htrue
        cases htrue
    cases ga with
    | other => simp [stmt_matches_grader] at hmatch
    | assign targets value =>
      cases targets with
      | nil => simp [stmt_matches_grader] at hmatch
      | cons t0 ts =>
        cases t0 with
        | tupleTarget => simp [stmt_matches_grader] at hmatch
        | name id =>
          cases value with
          | lam j =>
            exact ⟨"AttributeError: value object has no attribute args",
                   by simp [StateSeqGrader.init, hf]⟩
          | const =>
            exact ⟨"AttributeError: value object has no attribute args",
                   by simp [StateSeqGrader.init, hf]⟩
          | call args =>
            cases args with
            | nil => exact ⟨"IndexError", by simp [StateSeqGrader.init, hf]⟩
            | cons a0 rest =>
              cases a0 with
              | lam j =>
                exfalso
                have hid : id = "grader" := by
                  simpa [stmt_matches_grader] using hmatch
                rw [hid] at hnot
                simp [is_grader_lambda_assign] at hnot
              | call c =>
                exact ⟨"*** SUBMISSION FILE TEST FUNC MUST BE A LAMBDA ***",
                       by simp [StateSeqGrader.init, hf]⟩
              | const =>
                exact ⟨"*** SUBMISSION FILE TEST FUNC MUST BE A LAMBDA ***",
                       by simp [StateSeqGrader.init, hf]⟩

/-- Grader script tree whose first top-level statement is a
tuple-unpacking assignment (as produced by a line such as `a, b = 1, 2`)
followed by a perfectly well-formed `grader = Constructor(lambda ...)`
assignment. -/
def graderTupleScript : List PStmt :=
  [PStmt.assign [PTarget.tupleTarget] PExpr.const,
   PStmt.assign [PTarget.name "grader"] (PExpr.call [PExpr.lam 0])]

/-- Counterexample to C9 as stated: `graderTupleScript` does contain the
required top-level assignment of a one-lambda constructor call to
`grader` (first conjunct), so per the claim its construction should
succeed and append the internal binding — but the scan evaluates
`i.targets[0].id` on the preceding tuple-unpacking assignment and raises
AttributeError, so construction fails on this well-formed script (second
conjunct). -/
theorem graderInit_tuple_target_counterexample :
  has_grader_lambda_assignment graderTupleScript = true
  ∧ StateSeqGrader.init graderTupleScript =
      Except.error "AttributeError: Tuple object has no attribute id" :=
  ⟨rfl, rfl⟩

/-- C9 as amended: grader construction on a script tree lacking a
top-level assignment to `grader` of a call whose first positional
argument is a lambda fails fast with a construction-time error (first
conjunct); on a well-formed script in which, additionally, every
top-level statement preceding the grader assignment is either a
non-assignment or an assignment whose first target is a plain name other
than `grader` (so that the scan predicate evaluates cleanly to false on
it), construction succeeds and appends to the stored tree the binding of
the fixed internal name `__SUBMISSION_FILE_TEST_FUNC__` to that very
lambda (second conjunct). -/
theorem graderInit_amended :
  (∀ body : List PStmt, has_grader_lambda_assignment body = false →
      ∃ e, StateSeqGrader.init body = Except.error e)
  ∧ (∀ (pre : List PStmt) (ts : List PTarget) (i : Nat) (rest : List PExpr)
        (post : List PStmt),
      (∀ s ∈ pre, stmt_matches_grader s = Except.ok false) →
      StateSeqGrader.init
          (pre ++ PStmt.assign (PTarget.name "grader" :: ts)
            (PExpr.call (PExpr.lam i :: rest)) :: post) =
        Except.ok
          ((pre ++ PStmt.assign (PTarget.name "grader" :: ts)
              (PExpr.call (PExpr.lam i :: rest)) :: post) ++
           [PStmt.assign [PTarget.name "__SUBMISSION_FILE_TEST_FUNC__"]
              (PExpr.lam i)])) := by
  constructor
  · exact init_error_of_lacking
  · intro pre ts i rest post hpre
    have hfind : find_grader_assignment
        (pre ++ PStmt.assign (PTarget.name "grader" :: ts)
          (PExpr.call (PExpr.lam i :: rest)) :: post) =
        Except.ok (PStmt.assign (PTarget.name "grader" :: ts)
          (PExpr.call (PExpr.lam i :: rest))) := by
      rw [find_grader_skip pre _ hpre]
      simp [find_grader_assignment, stmt_matches_grader]
    simp [StateSeqGrader.init, hfind]

/-- Witness for the amended C9: a script with no grader assignment fails
with a construction-time error, and a script with one skippable leading
statement followed by the grader-lambda assignment is accepted with the
internal binding appended. -/
theorem graderInit_amended_witness :
  (∃ e, StateSeqGrader.init [PStmt.assign [PTarget.name "x"] PExpr.const] =
      Except.error e)
  ∧ StateSeqGrader.init
      [PStmt.other,
       PStmt.assign [PTarget.name "grader"] (PExpr.call [PExpr.lam 7])] =
      Except.ok
        [PStmt.other,
         PStmt.assign [PTarget.name "grader"] (PExpr.call [PExpr.lam 7]),
         PStmt.assign [PTarget.name "__SUBMISSION_FILE_TEST_FUNC__"]
           (PExpr.lam 7)] := by
  constructor
  · exact graderInit_amended.1 [PStmt.assign [PTarget.name "x"] PExpr.const] rfl
  · have hpre : ∀ s ∈ [PStmt.other], stmt_matches_grader s = Except.ok false := by
      intro s hs
      rw [List.mem_singleton] at hs
      subst hs
      rfl
    have h := graderInit_amended.2 [PStmt.other] [] 7 [] [] hpre
    simpa using h
